import Mathlib

/- Shallow embedding of the session orchestrator of a chat-driven video
   capture and archival bot (youtube_recorder_bot.py), with proofs about its
   components: the time-range resolver, the TTL token store, liveness
   detection, the retrying remote sync, download acquisition, the stop
   sequence of the live session supervisor, clip extraction, and pipeline
   job admission.  Machine reals of the source (Python float) are embedded
   as exact rationals; subprocess results and filesystem effects are passed
   in explicitly as environment records.  String operations are implemented
   over the character lists of the strings so that every definition
   evaluates inside the kernel. -/

instance {ε α : Type} [DecidableEq ε] [DecidableEq α] : DecidableEq (Except ε α) := fun x y =>
  match x, y with
  | .error a, .error b => decidable_of_iff (a = b) (by simp)
  | .error _, .ok _ => isFalse (by simp)
  | .ok _, .error _ => isFalse (by simp)
  | .ok a, .ok b => decidable_of_iff (a = b) (by simp)

/-- Strip of leading and trailing whitespace, modelling the Python method
    str.strip. -/
def strTrim (s : String) : String :=
  String.mk (((s.data.dropWhile Char.isWhitespace).reverse.dropWhile Char.isWhitespace).reverse)

/-- Lower-casing of a string, modelling the Python method str.lower. -/
def strToLower (s : String) : String :=
  String.mk (s.data.map Char.toLower)

/-- Helper of strSplitOnChar carrying the reversed current piece. -/
def splitOnCharAux (sep : Char) : List Char → List Char → List String
  | acc, [] => [String.mk acc.reverse]
  | acc, c :: rest =>
    if c = sep then String.mk acc.reverse :: splitOnCharAux sep [] rest
    else splitOnCharAux sep (c :: acc) rest

/-- Split of a string at every occurrence of a separator character,
    keeping empty pieces, modelling the Python method str.split with a
    one-character separator. -/
def strSplitOnChar (sep : Char) (s : String) : List String :=
  splitOnCharAux sep [] s.data

/-- Helper for substring containment: true when pat occurs as a contiguous
    sublist of the second argument. -/
def containsSubAux (pat : List Char) : List Char → Bool
  | [] => pat.isEmpty
  | c :: rest => pat.isPrefixOf (c :: rest) || containsSubAux pat rest

/-- Substring containment test, modelling the Python membership operator
    sub in s on strings. -/
def containsSub (pat s : String) : Bool :=
  containsSubAux pat.data s.data

/-- Addition on the rationals written through mkRat, so that it evaluates
    inside the kernel (the add of the standard library is irreducible).
    Proved equal to the standard addition below. -/
def ratAdd (a b : ℚ) : ℚ :=
  mkRat (a.num * b.den + b.num * a.den) (a.den * b.den)

/-- Multiplication on the rationals written through mkRat, so that it
    evaluates inside the kernel.  Proved equal to the standard
    multiplication below. -/
def ratMul (a b : ℚ) : ℚ :=
  mkRat (a.num * b.num) (a.den * b.den)

theorem ratAdd_eq (a b : ℚ) : ratAdd a b = a + b := by
  have ha : (a.den : ℤ) ≠ 0 := Int.natCast_ne_zero.mpr a.den_nz
  have hb : (b.den : ℤ) ≠ 0 := Int.natCast_ne_zero.mpr b.den_nz
  rw [ratAdd, Rat.mkRat_eq_divInt]
  conv_rhs => rw [← Rat.num_divInt_den a, ← Rat.num_divInt_den b,
    Rat.divInt_add_divInt _ _ ha hb]
  push_cast
  ring_nf

theorem ratMul_eq (a b : ℚ) : ratMul a b = a * b := by
  rw [ratMul, Rat.mkRat_eq_divInt]
  conv_rhs => rw [← Rat.num_divInt_den a, ← Rat.num_divInt_den b,
    Rat.divInt_mul_divInt']
  push_cast
  ring_nf

/-- Numeric value of a list of decimal digit characters, most significant
    first. -/
def digitsVal (l : List Char) : Nat :=
  l.foldl (fun a c => a * 10 + (c.toNat - 48)) 0

/-- Split a character list at the first dot, when one is present. -/
def splitAtDot : List Char → List Char × Option (List Char)
  | [] => ([], none)
  | c :: rest =>
    if c = '.' then ([], some rest)
    else
      let p := splitAtDot rest
      (c :: p.1, p.2)

/-- Model of the Python builtin float() as applied by parse_timecode to
    timecode components: surrounding whitespace stripped, an optional sign,
    decimal digits with at most one dot and at least one digit.  Exponent
    and special forms (inf, nan), never produced by timecode input in the
    bot, are not modelled.  The exact rational value is returned. -/
def pyFloat (s : String) : Option ℚ :=
  let t := (strTrim s).data
  let sb : Int × List Char :=
    match t with
    | '-' :: rest => (-1, rest)
    | '+' :: rest => (1, rest)
    | _ => (1, t)
  match splitAtDot sb.2 with
  | (ip, none) =>
    if ip ≠ [] ∧ ip.all Char.isDigit then some (mkRat (sb.1 * digitsVal ip) 1) else none
  | (ip, some fp) =>
    if (ip ≠ [] ∨ fp ≠ []) ∧ ip.all Char.isDigit ∧ fp.all Char.isDigit then
      some (mkRat (sb.1 * (digitsVal ip * 10 ^ fp.length + digitsVal fp)) (10 ^ fp.length))
    else none

/-- Component loop of parse_timecode: for each colon-separated part,
    total becomes total * 60 + value, rejecting empty and non-numeric
    parts with the same error strings as the source. -/
def timecodeLoop : ℚ → List String → Except String ℚ
  | total, [] => .ok total
  | total, p :: rest =>
    if p = "" then .error "invalid timecode segment"
    else
      match pyFloat p with
      | none => .error "invalid timecode number"
      | some v => timecodeLoop (ratAdd (ratMul total 60) v) rest

/-- Embedding of parse_timecode from youtube_recorder_bot.py (lines
    236-252): strip, reject the empty string, split on colons, fold the
    components left to right with weight 60, and reject a negative total. -/
def parse_timecode (text : String) : Except String ℚ :=
  let t := strTrim text
  if t = "" then .error "empty timecode"
  else
    match timecodeLoop 0 (strSplitOnChar ':' t) with
    | .error e => .error e
    | .ok total =>
      if total < 0 then .error "negative time not allowed" else .ok total

/-- Range separator characters of parse_time_range, from the regular
    expression class containing tilde, hyphen, en dash and em dash. -/
def isRangeSep (c : Char) : Bool :=
  c = '~' || c = '-' || c = '–' || c = '—'

/-- Split a character list at the first range separator; none when no
    separator occurs, modelling re.split with maxsplit one. -/
def splitFirstSep : List Char → Option (List Char × List Char)
  | [] => none
  | c :: rest =>
    if isRangeSep c then some ([], rest)
    else (splitFirstSep rest).map (fun p => (c :: p.1, p.2))

/-- Keywords that map a whole range expression to the full range. -/
def RANGE_ALL_WORDS : List String :=
  ["all", "full", "entire", "whole", "전체", "전체구간", "원본"]

/-- Embedding of parse_time_range from youtube_recorder_bot.py (lines
    254-269): full-range keywords map to (0, to-end), otherwise the
    expression splits at the first separator into start and end parts,
    empty start meaning 0 and empty end meaning to-end, and a bounded end
    must strictly exceed the start. -/
def parse_time_range (expr : String) : Except String (ℚ × Option ℚ) :=
  let text := strTrim expr
  if text = "" then .error "빈 입력"
  else if RANGE_ALL_WORDS.contains (strToLower text) then .ok (0, none)
  else
    match splitFirstSep text.data with
    | none => .error "`시작~끝` 형식으로 입력하세요"
    | some (a, b) =>
      let startRaw := strTrim (String.mk a)
      let endRaw := strTrim (String.mk b)
      match (if startRaw = "" then .ok 0 else parse_timecode startRaw : Except String ℚ) with
      | .error e => .error e
      | .ok start =>
        if endRaw = "" then .ok (start, none)
        else
          match parse_timecode endRaw with
          | .error e => .error e
          | .ok stop =>
            if stop ≤ start then .error "끝 시간이 시작 시간보다 커야 합니다"
            else .ok (start, some stop)

/-- C7: parse_time_range maps 00:05:00~00:12:30 to (300, 750), 00:10:00~
    to (600, to-end), and all and full to (0, to-end); it rejects 10~5
    with the validation error stating that the end must exceed the start,
    and rejects the empty string. -/
theorem c7_parse_time_range_examples :
    parse_time_range "00:05:00~00:12:30" = .ok (300, some 750)
  ∧ parse_time_range "00:10:00~" = .ok (600, none)
  ∧ parse_time_range "all" = .ok (0, none)
  ∧ parse_time_range "full" = .ok (0, none)
  ∧ parse_time_range "10~5" = .error "끝 시간이 시작 시간보다 커야 합니다"
  ∧ parse_time_range "" = .error "빈 입력" := by decide

/-- Weight formula of the specification: each component contributes its
    value times 60 to the power of the number of components after it,
    that is component i times 60 ^ (n - 1 - i) for the i-th of n
    components. -/
def weightedSum : List ℚ → ℚ
  | [] => 0
  | v :: rest => v * (60 : ℚ) ^ rest.length + weightedSum rest

theorem pyFloat_empty : pyFloat "" = none := by decide

/-- Successful monadic map over the option monad preserves length. -/
theorem mapM_option_length {α β : Type} (f : α → Option β) :
    ∀ (l : List α) (r : List β), l.mapM f = some r → r.length = l.length := by
  intro l
  induction l with
  | nil =>
    intro r h
    simp only [List.mapM_nil, Option.pure_def, Option.some.injEq] at h
    subst h; rfl
  | cons a t ih =>
    intro r h
    rw [List.mapM_cons] at h
    cases hf : f a with
    | none => rw [hf] at h; simp at h
    | some b =>
      rw [hf] at h
      cases ht : t.mapM f with
      | none => rw [ht] at h; simp at h
      | some r' =>
        rw [ht] at h
        simp only [Option.bind_eq_bind, Option.some_bind, Option.pure_def,
          Option.some.injEq] at h
        subst h
        simp [ih r' ht]

/-- Horner evaluation of the component loop agrees with the positional
    weight formula of the specification, for any accumulator. -/
theorem timecodeLoop_horner (parts : List String) (vs : List ℚ) (acc : ℚ)
    (hp : parts.mapM pyFloat = some vs) :
    timecodeLoop acc parts = .ok (acc * (60 : ℚ) ^ parts.length + weightedSum vs) := by
  induction parts generalizing vs acc with
  | nil =>
    simp only [List.mapM_nil, pure, Option.some.injEq] at hp
    subst hp
    simp [timecodeLoop, weightedSum]
  | cons p rest ih =>
    rw [List.mapM_cons] at hp
    cases hpf : pyFloat p with
    | none => rw [hpf] at hp; simp at hp
    | some v =>
      rw [hpf] at hp
      cases hrest : rest.mapM pyFloat with
      | none => rw [hrest] at hp; simp at hp
      | some vs' =>
        rw [hrest] at hp
        simp only [Option.bind_eq_bind, Option.some_bind, Option.pure_def,
          Option.some.injEq] at hp
        subst hp
        have hpne : ¬ p = "" := by
          intro h; rw [h, pyFloat_empty] at hpf; exact Option.noConfusion hpf
        rw [timecodeLoop, if_neg hpne, hpf]
        dsimp only
        rw [ih vs' _ hrest]
        have : ratAdd (ratMul acc 60) v = acc * 60 + v := by
          rw [ratAdd_eq, ratMul_eq]
        rw [this, weightedSum]
        have hlen : vs'.length = rest.length := mapM_option_length pyFloat rest vs' hrest
        congr 1
        rw [hlen, List.length_cons]
        ring

/-- C8 (amended): for every timecode text whose colon-separated parts all
    parse as numbers, parse_timecode interprets the components left to
    right with value equal to the sum of component i times
    60 ^ (n - 1 - i), for any number n of components (not only 1, 2 or 3),
    and rejects a negative total. -/
theorem c8_timecode_weighted_sum (text : String) (vs : List ℚ)
    (hp : (strSplitOnChar ':' (strTrim text)).mapM pyFloat = some vs) :
    parse_timecode text =
      if weightedSum vs < 0 then .error "negative time not allowed"
      else .ok (weightedSum vs) := by
  unfold parse_timecode
  by_cases ht : strTrim text = ""
  · rw [ht] at hp
    have h1 : strSplitOnChar ':' "" = [""] := by decide
    rw [h1, List.mapM_cons, pyFloat_empty] at hp
    simp at hp
  · rw [if_neg ht, timecodeLoop_horner _ _ _ hp, zero_mul, zero_add]

/-- C8 witness: the three-component fractional timecode 1:2:3.5 evaluates
    to the weighted sum of its components. -/
theorem c8_timecode_weighted_sum_witness :
    parse_timecode "1:2:3.5" =
      if weightedSum [1, 2, mkRat 7 2] < 0 then .error "negative time not allowed"
      else .ok (weightedSum [1, 2, mkRat 7 2]) :=
  c8_timecode_weighted_sum "1:2:3.5" [1, 2, mkRat 7 2] (by decide)

/-- C8 counterexample: the claim says the parser supports exactly 1, 2 or
    3 components, but a four-component timecode is accepted by the code
    and evaluated with the same weighting. -/
theorem c8_counterexample :
    parse_timecode "1:2:3:4" = .ok 223384
  ∧ (strSplitOnChar ':' (strTrim "1:2:3:4")).length = 4 := by decide

/-- Entry of the token store: kind, payload value and creation timestamp
    in seconds. -/
structure TokenEntry where
  kind : String
  value : String
  ts : Nat
deriving DecidableEq

/-- Embedding of the class TokenStore of youtube_recorder_bot.py (lines
    717-733): a TTL in seconds and a map from token to entry, represented
    as an association list whose keys put keeps distinct.  The mutex of
    the source serialises access; the clock value of time.time() is passed
    in explicitly as a natural number of seconds. -/
structure TokenStore where
  ttl : Nat
  data : List (String × TokenEntry)
deriving DecidableEq

/-- Lazy eviction: drop every entry strictly older than the TTL, as the
    private gc method does on every put and get. -/
def TokenStore.gc (s : TokenStore) (now : Nat) : TokenStore :=
  { s with data := s.data.filter (fun e => decide (now - e.2.ts ≤ s.ttl)) }

/-- Put of the token store: the fresh random token drawn from
    secrets.token_urlsafe in the source is passed in as token; expired
    entries are evicted, then the entry is recorded under the token,
    overwriting any equal key as dict assignment does. -/
def TokenStore.put (s : TokenStore) (token kind value : String) (now : Nat) : TokenStore :=
  let g := s.gc now
  { g with data := (token, ⟨kind, value, now⟩) :: g.data.filter (fun e => e.1 != token) }

/-- Get of the token store: evict expired entries, then look the token up,
    returning the stored entry or none; no error path exists. -/
def TokenStore.get (s : TokenStore) (token : String) (now : Nat) :
    TokenStore × Option TokenEntry :=
  let g := s.gc now
  (g, (g.data.find? (fun e => e.1 == token)).map Prod.snd)

/-- Token store instance of the bot, with the default TTL of 3600
    seconds. -/
def TOKENS : TokenStore := ⟨3600, []⟩

/-- C6: a get after a put of (kind, payload), performed while the age of
    the entry is at most the TTL, returns exactly the stored kind and
    payload; a get on a token that was never issued returns none; a get on
    a token whose entries are all older than the TTL returns none.  The
    total Option return type witnesses that no error is ever raised. -/
theorem c6_token_roundtrip :
    (∀ (s : TokenStore) (token kind value : String) (t tGet : Nat),
      t ≤ tGet → tGet - t ≤ s.ttl →
      ((s.put token kind value t).get token tGet).2 = some ⟨kind, value, t⟩)
  ∧ (∀ (s : TokenStore) (token : String) (now : Nat),
      (∀ e ∈ s.data, e.1 ≠ token) → (s.get token now).2 = none)
  ∧ (∀ (s : TokenStore) (token : String) (now : Nat),
      (∀ e ∈ s.data, e.1 = token → s.ttl < now - e.2.ts) →
      (s.get token now).2 = none) := by
  refine ⟨?_, ?_, ?_⟩
  · intro s token kind value t tGet h1 h2
    have h2' : tGet ≤ s.ttl + t := by omega
    simp [TokenStore.put, TokenStore.get, TokenStore.gc, List.filter_cons, h2']
  · intro s token now h
    simp only [TokenStore.get, TokenStore.gc]
    rw [List.find?_eq_none.mpr]
    · rfl
    · intro x hx
      have hxd := (List.mem_filter.mp hx).1
      simp [h x hxd]
  · intro s token now h
    simp only [TokenStore.get, TokenStore.gc]
    rw [List.find?_eq_none.mpr]
    · rfl
    · intro x hx hbeq
      obtain ⟨hxd, hxc⟩ := List.mem_filter.mp hx
      have hxeq : x.1 = token := by simpa using hbeq
      have hold := h x hxd hxeq
      simp only [decide_eq_true_eq] at hxc
      omega

/-- C6 witness: a concrete round trip, an unknown token, and an expired
    token, against the default store. -/
theorem c6_token_roundtrip_witness :
    ((TOKENS.put "tok" "file" "a/b.mp4" 0).get "tok" 100).2 = some ⟨"file", "a/b.mp4", 0⟩
  ∧ (TOKENS.get "ghost" 50).2 = none
  ∧ ((TOKENS.put "tok" "file" "a/b.mp4" 0).get "tok" 5000).2 = none :=
  ⟨c6_token_roundtrip.1 TOKENS "tok" "file" "a/b.mp4" 0 100 (by decide) (by decide),
   c6_token_roundtrip.2.1 TOKENS "ghost" 50 (by decide),
   c6_token_roundtrip.2.2 (TOKENS.put "tok" "file" "a/b.mp4" 0) "tok" 5000 (by decide)⟩

/-- Result of the yt-dlp JSON probe as inspected by detect_live: a plain
    dict with an optional is_live field, a dict carrying an entries list
    whose members are null or dicts with an optional is_live field, or
    JSON that is not a dict.  A probe failure is the none case of the
    option. -/
inductive ProbeInfo
  | node (is_live : Option Bool)
  | entries (l : List (Option (Option Bool)))
  | nonDict
deriving DecidableEq

/-- URL pattern of detect_live: the lowered URL contains /live/, or it
    contains watch?v= together with live. -/
def isLivePattern (url : String) : Bool :=
  containsSub "/live/" (strToLower url) ||
    (containsSub "watch?v=" (strToLower url) && containsSub "live" (strToLower url))

/-- Embedding of detect_live (lines 435-444): live is computed from the
    probe node (the head of entries when an entries list is present), then
    combined with the URL pattern as live or pattern.  An empty entries
    list raises IndexError in the source, embedded as the error case. -/
def detect_live (info : Option ProbeInfo) (url : String) : Except Unit Bool :=
  match info with
  | none => .ok (false || isLivePattern url)
  | some .nonDict => .ok (false || isLivePattern url)
  | some (.node f) => .ok ((f == some true) || isLivePattern url)
  | some (.entries []) => .error ()
  | some (.entries (none :: _)) => .ok (false || isLivePattern url)
  | some (.entries (some f :: _)) => .ok ((f == some true) || isLivePattern url)

/-- Probe signal named by the specification: is_live of the probed node is
    exactly true. -/
def probeSignal : Option ProbeInfo → Bool
  | some (.node f) => f == some true
  | some (.entries (some f :: _)) => f == some true
  | _ => false

/-- C5 counterexample: on a probe dict carrying an empty entries list the
    source raises IndexError at the subscript of entries, so detect_live
    does not return the boolean or of the probe signal and the URL pattern
    there — the claim, which quantifies over every call, is false at this
    input. -/
theorem c5_counterexample :
    detect_live (some (.entries [])) "https://a.b/live/x" = .error ()
  ∧ detect_live (some (.entries [])) "https://a.b/live/x" ≠
      .ok (probeSignal (some (.entries [])) ||
        isLivePattern "https://a.b/live/x") := by
  exact ⟨rfl, by decide⟩

/-- C5 (amended): on every call on which the probe result is not a dict
    with an empty entries list (the one input where the source raises
    IndexError instead of returning), detect_live returns exactly the
    boolean or of the fresh probe signal and the URL pattern match, and
    carries no state across calls: over any sequence of calls the i-th
    result is a function of the i-th input alone, so a true result never
    makes a later result sticky. -/
theorem c5_detect_live_or :
    (∀ (info : Option ProbeInfo) (url : String), info ≠ some (.entries []) →
      detect_live info url = .ok (probeSignal info || isLivePattern url))
  ∧ ∀ (calls : List (Option ProbeInfo × String)) (i : Nat),
      (calls.map (fun c => detect_live c.1 c.2))[i]? =
        (calls[i]?).map (fun c => detect_live c.1 c.2) := by
  constructor
  · intro info url h
    match info with
    | none => rfl
    | some .nonDict => rfl
    | some (.node f) => rfl
    | some (.entries []) => exact absurd rfl h
    | some (.entries (none :: _)) => rfl
    | some (.entries (some f :: _)) => rfl
  · intro calls i
    exact List.getElem?_map _ _ _

/-- C5 witness: a live probe on a watch URL evaluates to the or of the two
    signals. -/
theorem c5_detect_live_or_witness :
    detect_live (some (.node (some true))) "https://example.com/watch?v=abc" =
      .ok (probeSignal (some (.node (some true))) ||
        isLivePattern "https://example.com/watch?v=abc") :=
  c5_detect_live_or.1 _ _ (by decide)

/-- Prefix test on strings by character list, modelling str.startswith. -/
def strStartsWith (s pre : String) : Bool :=
  pre.data.isPrefixOf s.data

/-- Suffix test on strings by character list, modelling str.endswith. -/
def strEndsWith (s suf : String) : Bool :=
  suf.data.reverse.isPrefixOf s.data.reverse

/-- Embedding of rclone_path (lines 335-339), with the remote name passed
    explicitly: the empty path maps to remote:, a path already carrying
    the remote prefix is returned unchanged, a leading slash is dropped,
    and the result is remote:/path. -/
def rclone_path (remote path : String) : String :=
  if path = "" then remote ++ ":"
  else if strStartsWith path (remote ++ ":") then path
  else if strStartsWith path "/" then remote ++ ":/" ++ String.mk path.data.tail
  else remote ++ ":/" ++ path

/-- Embedding of the helper join_remote (lines 349-354). -/
def join_remote (remoteDir name : String) : String :=
  if strEndsWith remoteDir ":" then remoteDir ++ "/" ++ name
  else if strEndsWith remoteDir "/" then remoteDir ++ name
  else remoteDir ++ "/" ++ name

/-- Tunable parameters of one rclone copy attempt. -/
structure CopyParams where
  transfers : Nat
  checkers : Nat
  retries : Nat
  lowLevelRetries : Nat
  retriesSleep : String
  chunkSizeM : Nat
deriving DecidableEq

/-- Attempt 1 of rclone_upload: transfers 1, checkers 4, retries 3,
    low-level retries 10, sleep 10s, chunk size 10M. -/
def attempt1Params : CopyParams := ⟨1, 4, 3, 10, "10s", 10⟩

/-- Attempt 2 of rclone_upload: transfers 1, checkers 2, retries 4,
    low-level retries 20, sleep 15s, chunk size 5M. -/
def attempt2Params : CopyParams := ⟨1, 2, 4, 20, "15s", 5⟩

/-- Attempt 3 of rclone_upload: the budget of attempt 2 with a directory
    target. -/
def attempt3Params : CopyParams := ⟨1, 2, 4, 20, "15s", 5⟩

/-- Flag list shared by the copy attempts of rclone_upload, rendered from
    the parameters in the order of the source. -/
def copyFlags (p : CopyParams) (noTraverse : Bool) : List String :=
  ["--transfers", toString p.transfers, "--checkers", toString p.checkers,
   "--retries", toString p.retries, "--low-level-retries", toString p.lowLevelRetries,
   "--retries-sleep", p.retriesSleep,
   "--progress=false", "--stats=0",
   "--ignore-times", "--checksum"]
  ++ (if noTraverse then ["--no-traverse"] else [])
  ++ ["--onedrive-chunk-size", toString p.chunkSizeM ++ "M"]

/-- Command asserting the remote folder, rclone mkdir. -/
def mkdirCmd (remoteDir : String) : List String :=
  ["rclone", "mkdir", remoteDir]

/-- Command of a copyto attempt: file to destination path copy. -/
def copytoCmd (p : CopyParams) (localFile dest : String) : List String :=
  ["rclone", "copyto", localFile, dest] ++ copyFlags p true

/-- Command of the final directory-target copy attempt. -/
def copyDirCmd (p : CopyParams) (localFile remoteDir : String) : List String :=
  ["rclone", "copy", localFile, remoteDir] ++ copyFlags p false

/-- Outcomes of the copy subprocess invocations of one rclone_upload run:
    the success flag of each attempt and the error text of attempt 1. -/
structure UploadEnv where
  r1ok : Bool
  r1err : String
  r2ok : Bool
  r3ok : Bool
deriving DecidableEq

/-- Transient error class tested by rclone_upload on the first failure:
    the error text contains itemNotFound or Item not found. -/
def itemNotFoundErr (err : String) : Bool :=
  containsSub "itemNotFound" err || containsSub "Item not found" err

/-- Embedding of rclone_upload (lines 356-414): returns the overall
    success flag together with the ordered trace of issued rclone
    commands.  The folder is asserted first; attempt 1 is a copyto with
    the default chunk size; on an item-not-found class failure the folder
    is re-asserted and attempt 2 retries with a larger retry budget and a
    smaller chunk size; any other failure, or a failed attempt 2, falls
    through to the directory-target copy attempt 3. -/
def rclone_upload (env : UploadEnv) (remote localFile localName remoteFolder : String) :
    Bool × List (List String) :=
  let remoteDir := rclone_path remote remoteFolder
  let dest := join_remote remoteDir localName
  let pre := [mkdirCmd remoteDir, copytoCmd attempt1Params localFile dest]
  if env.r1ok then (true, pre)
  else if itemNotFoundErr env.r1err then
    let t2 := pre ++ [mkdirCmd remoteDir, copytoCmd attempt2Params localFile dest]
    if env.r2ok then (true, t2)
    else (env.r3ok, t2 ++ [copyDirCmd attempt3Params localFile remoteDir])
  else (env.r3ok, pre ++ [copyDirCmd attempt3Params localFile remoteDir])

/-- Copy attempts in a command trace: rclone invocations whose verb is
    copyto or copy. -/
def isCopyAttempt : List String → Bool
  | "rclone" :: verb :: _ => verb == "copyto" || verb == "copy"
  | _ => false

/-- C3: when attempt 1 fails with an error of the item-not-found class and
    attempt 2 succeeds, rclone_upload returns success having issued
    exactly two copy attempts, with a mkdir re-assert immediately before
    the second attempt, whose chunk size is smaller and whose retry budget
    is larger than that of the first. -/
theorem c3_upload_retry (env : UploadEnv)
    (remote localFile localName remoteFolder : String)
    (h1 : env.r1ok = false) (h2 : itemNotFoundErr env.r1err = true)
    (h3 : env.r2ok = true) :
    (rclone_upload env remote localFile localName remoteFolder).1 = true
  ∧ (rclone_upload env remote localFile localName remoteFolder).2 =
      [mkdirCmd (rclone_path remote remoteFolder),
       copytoCmd attempt1Params localFile
         (join_remote (rclone_path remote remoteFolder) localName),
       mkdirCmd (rclone_path remote remoteFolder),
       copytoCmd attempt2Params localFile
         (join_remote (rclone_path remote remoteFolder) localName)]
  ∧ ((rclone_upload env remote localFile localName remoteFolder).2.filter
      isCopyAttempt).length = 2
  ∧ attempt2Params.chunkSizeM < attempt1Params.chunkSizeM
  ∧ attempt1Params.retries < attempt2Params.retries
  ∧ attempt1Params.lowLevelRetries < attempt2Params.lowLevelRetries := by
  refine ⟨?_, ?_, ?_, by decide, by decide, by decide⟩
  · simp [rclone_upload, h1, h2, h3]
  · simp [rclone_upload, h1, h2, h3]
  · simp [rclone_upload, h1, h2, h3, mkdirCmd, copytoCmd, isCopyAttempt,
      List.filter]

/-- C3 witness at a concrete environment and concrete paths. -/
theorem c3_upload_retry_witness :
    (rclone_upload ⟨false, "ERROR: itemNotFound from OneDrive", true, false⟩
      "onedrive" "/tmp/a.mp4" "a.mp4" "YouTube_Backup").1 = true :=
  (c3_upload_retry ⟨false, "ERROR: itemNotFound from OneDrive", true, false⟩
    "onedrive" "/tmp/a.mp4" "a.mp4" "YouTube_Backup" rfl (by decide) rfl).1

/-- Embedding of the option list of the helper yt_common_opts (lines
    446-455): one fixed list without any ffmpeg-availability parameter;
    the muxing-dependent flags remux-video, merge-output-format and
    postprocessor-args are always present, as is the split
    audio-plus-video format selector. -/
def yt_common_opts : List String :=
  ["--no-progress", "-N", "8", "--http-chunk-size", "10M",
   "--hls-prefer-ffmpeg",
   "--no-keep-fragments",
   "--downloader-args", "ffmpeg:-reconnect 1 -reconnect_streamed 1 -reconnect_delay_max 2",
   "-f", "bv*[ext=mp4]+ba[ext=m4a]/b[ext=mp4]/bv*+ba/best",
   "--remux-video", "mp4", "--merge-output-format", "mp4",
   "--postprocessor-args", "ffmpeg:-movflags +faststart -bsf:a aac_adtstoasc"]

/-- Commands issued by yt_download (lines 457-465): exactly one yt-dlp
    invocation built from the common options and the output template.  The
    function performs no ffmpeg availability check and has no second,
    progressive-only attempt. -/
def yt_download_cmds (url tmpl : String) : List (List String) :=
  [["yt-dlp"] ++ yt_common_opts ++ ["-o", tmpl, url]]

/-- C1: evidence of the divergence: for every URL and output template the
    acquisition function issues exactly one download command, and the
    common options always carry the muxing-dependent flags, so no
    muxing-free Profile B fallback exists and Profile A is never skipped
    when the muxing tool is absent — contradicting both the claim and the
    fallback behaviour asserted by the test file
    tests/test_download_fallback.py of the repository. -/
theorem c1_single_profile (url tmpl : String) :
    (yt_download_cmds url tmpl).length = 1
  ∧ "--remux-video" ∈ yt_common_opts
  ∧ "--merge-output-format" ∈ yt_common_opts
  ∧ "--postprocessor-args" ∈ yt_common_opts :=
  ⟨rfl, by decide, by decide, by decide⟩

/-- Possible outcomes of one run of stop_live_record. -/
inductive StopOutcome
  | alreadyInProgress
  | noFile
  | uploaded
  | uploadFailed
  | raised
deriving DecidableEq

/-- Environment of one run of stop_live_record (lines 682-714): whether
    the lock file STOP_LOCK already exists when touch with exist_ok false
    runs; whether the candidate-directory scan raises (for example a
    PermissionError escaping iterdir); the qualifying artifact found by
    the scan, when one exists; whether rclone_upload raises (run_cmd
    raises FileNotFoundError when the rclone binary is absent); and the
    boolean result of the upload when it returns.  The process interrupt
    sequence of the source is wrapped in try, except and finally and
    touches neither the lock nor the artifact, so it needs no field, and
    ensure_mp4_faststart catches its own exceptions. -/
structure StopEnv where
  lockHeld : Bool
  scanRaises : Bool
  artifact : Option String
  uploadRaises : Bool
  uploadOk : Bool
deriving DecidableEq

/-- Observable result of one run of stop_live_record: the outcome, whether
    the STOP_LOCK file still exists when control leaves the function
    (normal return or propagating exception), and whether the normalized
    artifact file was deleted. -/
structure StopResult where
  outcome : StopOutcome
  lockAfter : Bool
  artifactDeleted : Bool
deriving DecidableEq

/-- Embedding of stop_live_record (lines 682-714).  The lock is released
    by unlink on the no-file path, the upload-success path and the
    upload-failure path; no try and finally protects the body, so an
    exception escaping the scan or the upload leaves the lock file in
    place.  The artifact is deleted only on the upload-success path. -/
def stop_live_record (env : StopEnv) : StopResult :=
  if env.lockHeld then ⟨.alreadyInProgress, true, false⟩
  else if env.scanRaises then ⟨.raised, true, false⟩
  else
    match env.artifact with
    | none => ⟨.noFile, false, false⟩
    | some _ =>
      if env.uploadRaises then ⟨.raised, true, false⟩
      else if env.uploadOk then ⟨.uploaded, false, true⟩
      else ⟨.uploadFailed, false, false⟩

/-- C2 counterexample: a run that acquires the stop lock and then suffers
    an exception from the upload returns with the lock file still present,
    so a later stop call would be spuriously rejected — the claim that the
    lock is released on every exit path including exceptions is false. -/
theorem c2_counterexample :
    (stop_live_record ⟨false, false, some "rec.mp4", true, true⟩).lockAfter = true := rfl

/-- C2 (amended): on every run that acquires the stop lock and in which
    neither the artifact scan nor the upload raises, the lock is released
    before the call returns on every exit path: the no-qualifying-file
    path, the upload-success path and the upload-failure path. -/
theorem c2_stop_lock_released (env : StopEnv)
    (h1 : env.lockHeld = false) (h2 : env.scanRaises = false)
    (h3 : env.uploadRaises = false) :
    (stop_live_record env).lockAfter = false := by
  rcases env with ⟨lh, sr, art, ur, uo⟩
  simp only at h1 h2 h3
  subst h1; subst h2; subst h3
  cases art with
  | none => rfl
  | some a => cases uo <;> rfl

/-- C2 witness: a concrete non-raising run with a found artifact and a
    failed upload releases the lock. -/
theorem c2_stop_lock_released_witness :
    (stop_live_record ⟨false, false, some "rec.mp4", false, false⟩).lockAfter = false :=
  c2_stop_lock_released ⟨false, false, some "rec.mp4", false, false⟩ rfl rfl rfl

/-- C9: the artifact is deleted only on a run whose outcome is a confirmed
    successful upload, and on every non-raising run with a qualifying
    artifact a failed upload leaves the file on disk and reports failure
    while a successful upload deletes it. -/
theorem c9_delete_only_after_sync :
    (∀ env : StopEnv, (stop_live_record env).artifactDeleted = true →
      (stop_live_record env).outcome = .uploaded ∧ env.uploadOk = true)
  ∧ (∀ env : StopEnv, env.lockHeld = false → env.scanRaises = false →
      env.artifact.isSome = true → env.uploadRaises = false →
      ((env.uploadOk = false →
          (stop_live_record env).artifactDeleted = false ∧
          (stop_live_record env).outcome = .uploadFailed)
        ∧ (env.uploadOk = true → (stop_live_record env).artifactDeleted = true))) := by
  constructor
  · intro env h
    rcases env with ⟨lh, sr, art, ur, uo⟩
    cases lh <;> cases sr <;> cases art <;> cases ur <;> cases uo <;>
      simp_all [stop_live_record]
  · intro env h1 h2 h3 h4
    rcases env with ⟨lh, sr, art, ur, uo⟩
    simp only at h1 h2 h4
    subst h1; subst h2; subst h4
    cases art with
    | none => simp at h3
    | some a => cases uo <;> simp [stop_live_record]

/-- C9 witness: concrete upload-failure and upload-success runs. -/
theorem c9_delete_only_after_sync_witness :
    ((stop_live_record ⟨false, false, some "rec.mp4", false, false⟩).artifactDeleted = false ∧
      (stop_live_record ⟨false, false, some "rec.mp4", false, false⟩).outcome = .uploadFailed)
  ∧ (stop_live_record ⟨false, false, some "rec.mp4", false, true⟩).artifactDeleted = true :=
  ⟨(c9_delete_only_after_sync.2 ⟨false, false, some "rec.mp4", false, false⟩
      rfl rfl rfl rfl).1 rfl,
   (c9_delete_only_after_sync.2 ⟨false, false, some "rec.mp4", false, true⟩
      rfl rfl rfl rfl).2 rfl⟩

/-- Result of one ffmpeg invocation of extract_media_segment: the exit
    code and the state of the destination file after the run (some size
    when the file exists, none when it does not). -/
structure FfmpegRun where
  rc : Int
  outSize : Option Nat
deriving DecidableEq

/-- Environment of one extract_media_segment call: the stream-copy attempt
    and the re-encode attempt. -/
structure ClipEnv where
  run1 : FfmpegRun
  run2 : FfmpegRun
deriving DecidableEq

/-- Success condition applied after each attempt: exit code zero, the
    destination exists, and its size is positive. -/
def runProduced (r : FfmpegRun) : Bool :=
  r.rc == 0 && (match r.outSize with | some n => decide (0 < n) | none => false)

/-- Embedding of extract_media_segment (lines 305-332): the destination is
    unlinked before each attempt; attempt 1 is a stream copy, attempt 2 a
    re-encode.  The first component is the returned value (the size of the
    produced file on success, none on failure) and the second is the file
    state left at the destination path when the call returns: on a doubly
    failed run the destination is not cleaned up, so whatever attempt 2
    wrote remains. -/
def extract_media_segment (env : ClipEnv) : Option Nat × Option Nat :=
  if runProduced env.run1 then (env.run1.outSize, env.run1.outSize)
  else
    if runProduced env.run2 then (env.run2.outSize, env.run2.outSize)
    else (none, env.run2.outSize)

/-- C10 counterexample: both attempts fail (non-zero exit codes) but the
    re-encode attempt wrote 4096 bytes before failing; the call returns
    failure yet the partial file remains at the destination, so the claim
    that no partial output is left behind is false. -/
theorem c10_counterexample :
    extract_media_segment ⟨⟨1, none⟩, ⟨1, some 4096⟩⟩ = (none, some 4096) := rfl

/-- C10 (amended): when both attempts fail the call reports a single
    failure (returns none); any partial output of attempt 1 was removed by
    the unlink before attempt 2, but the destination is left exactly as
    the failed attempt 2 wrote it, which may be a partial file. -/
theorem c10_clip_failure (env : ClipEnv)
    (h1 : runProduced env.run1 = false) (h2 : runProduced env.run2 = false) :
    extract_media_segment env = (none, env.run2.outSize) := by
  simp [extract_media_segment, h1, h2]

/-- C10 witness: a doubly failed run in which attempt 2 wrote nothing
    returns failure with no file at the destination. -/
theorem c10_clip_failure_witness :
    extract_media_segment ⟨⟨1, none⟩, ⟨1, none⟩⟩ = (none, none) :=
  c10_clip_failure ⟨⟨1, none⟩, ⟨1, none⟩⟩ (by decide) (by decide)

/-- Admission decision for a new pipeline request. -/
inductive Admission
  | proceeded
  | rejectedConflict
deriving DecidableEq

/-- Job admission step of process_pipeline (lines 629-634) as reached from
    handle_url (lines 1243-1249): neither function consults active_jobs,
    so the new job is recorded unconditionally under the chat id
    (overwriting any active entry, as dict assignment does) and the run
    proceeds; no conflict rejection exists on this path. -/
def process_pipeline_start (jobs : List (Nat × String)) (chatId : Nat) :
    Admission × List (Nat × String) :=
  (.proceeded, (chatId, "downloading") :: jobs.filter (fun e => e.1 != chatId))

/-- Lookup of the job of a chat in the registry. -/
def lookupJob (jobs : List (Nat × String)) (chatId : Nat) : Option String :=
  (jobs.find? (fun e => e.1 == chatId)).map Prod.snd

/-- C4 counterexample: chat 7 already has an active downloading job, yet a
    new pipeline request for chat 7 proceeds instead of being rejected
    with a conflict — the claim that a session with an active job has new
    requests rejected is false. -/
theorem c4_counterexample :
    (process_pipeline_start [(7, "downloading")] 7).1 = Admission.proceeded := rfl

/-- C4 (amended): a new pipeline request always proceeds, for every state
    of the job registry, and afterwards the job entry of the session holds
    the new downloading job: requests are neither rejected nor enqueued,
    and a second request runs concurrently with the first while
    overwriting its registry entry. -/
theorem c4_no_conflict_rejection (jobs : List (Nat × String)) (chatId : Nat) :
    (process_pipeline_start jobs chatId).1 = Admission.proceeded
  ∧ lookupJob (process_pipeline_start jobs chatId).2 chatId = some "downloading" := by
  refine ⟨rfl, ?_⟩
  simp [lookupJob, process_pipeline_start, List.find?]
